import Mathlib

/-!
# osdctl `cluster resize infra`: a shallow embedding of `cmd/cluster/resize`

The development embeds `cmd.go` and `infra_node.go` of the `resize` package.

* Go values are Lean structures carrying the Go field names; a Go pointer field
  (`Spec.Replicas`, `Spec.Platform.AWS`, `Spec.Platform.GCP`, `Resize.cluster`,
  the three clients) is an `Option`, `nil` being `none`.
* A Go call ends in one of three ways, recorded by `Outcome`: it returns a
  value with a nil error, it returns a non-nil error, or it panics on a nil
  pointer dereference.
* Methods on the pointer receiver `*Resize` thread the receiver explicitly.
* Everything the package reaches over the network (OCM, the hive and cluster
  API servers, the confirmation prompt, the service-log command) is scripted
  by a `World`; the calls `RunInfra` issues are collected in a trace of
  `Call`s.  Log and print statements are not modelled.
-/

namespace Resize

/-! ## Errors and outcomes -/

/-- Errors the package can hand back.  The first group are the errors built in this
package, one constructor per `fmt.Errorf` / `errors.New` site; `waitTimeout` is
`wait.ErrWaitTimeout`; `notFound` and `external` are errors produced by a collaborator. -/
inductive Err where
  /-- From `cmd.go:70`, "failed to get OCM cluster info for %s: %s". -/
  | failedToGetOCMClusterInfo (clusterId : String) (cause : Err)
  /-- From `infra_node.go:66`, "failed to initialize command: %v". -/
  | failedToInitialize (cause : Err)
  /-- From `infra_node.go:85`, "failed to parse instance type from machinepool: %v". -/
  | failedToParseInstanceType (cause : Err)
  /-- From `infra_node.go:276`, "expected 1 namespace, found %d namespaces with tag ...". -/
  | expectedOneNamespace (found : Nat) (clusterId : String)
  /-- From `infra_node.go:294`, "did not find the infra machinepool in namespace: %s". -/
  | infraMachinePoolNotFound (ns : String)
  /-- From `infra_node.go:330`, "resizing instance type %s not supported". -/
  | resizingNotSupported (instanceType : String)
  /-- From `infra_node.go:342`, "cloud provider not supported: %s, only AWS and GCP are supported". -/
  | cloudProviderNotSupported (id : String)
  /-- From `infra_node.go:355`, "unsupported platform, only AWS and GCP are supported". -/
  | unsupportedPlatform
  /-- The error `wait.ErrWaitTimeout`, returned by `wait.PollImmediate` when the timeout elapses. -/
  | waitTimeout
  /-- A `StatusError` of reason `NotFound` from the API server. -/
  | notFound (msg : String)
  /-- Any other error returned by a collaborator (API server, OCM, scheme registration). -/
  | external (msg : String)
  deriving DecidableEq, Repr

/-- The three ways a Go call of this package can end. -/
inductive Outcome (α : Type) where
  /-- Returned a value and a nil error. -/
  | ok (v : α)
  /-- Returned a non-nil error. -/
  | err (e : Err)
  /-- Panicked on a nil pointer dereference. -/
  | nilDeref
  deriving DecidableEq, Repr

/-! ## Data model -/

/-- The `aws.MachinePoolPlatform` of hive, reduced to the field the package touches and
one field it does not. -/
structure AWSMachinePoolPlatform where
  InstanceType : String
  Zones : List String
  deriving DecidableEq, Repr

/-- The `gcp.MachinePool` of hive, reduced likewise. -/
structure GCPMachinePool where
  InstanceType : String
  Zones : List String
  deriving DecidableEq, Repr

/-- The `hivev1.MachinePoolPlatform`: one pointer per provider. -/
structure MachinePoolPlatform where
  AWS : Option AWSMachinePoolPlatform
  GCP : Option GCPMachinePool
  deriving DecidableEq, Repr

/-- The `hivev1.MachinePoolSpec`; `Replicas` is a `*int64`. -/
structure MachinePoolSpec where
  Name : String
  Replicas : Option Int
  Platform : MachinePoolPlatform
  Labels : List (String × String)
  deriving DecidableEq, Repr

/-- The `hivev1.MachinePoolStatus`; its zero value is `MachinePoolStatus.zero`. -/
structure MachinePoolStatus where
  Replicas : Int
  MachineSets : List String
  Conditions : List String
  deriving DecidableEq, Repr

/-- The Go zero value `hivev1.MachinePoolStatus{}`. -/
def MachinePoolStatus.zero : MachinePoolStatus :=
  { Replicas := 0, MachineSets := [], Conditions := [] }

/-- The `hivev1.MachinePool`, with the object metadata inlined as in Go (embedded
`ObjectMeta`).  `CreationTimestamp` is the wall-clock second, `0` for the zero
`metav1.Time{}`. -/
structure MachinePool where
  Namespace : String
  Name : String
  Labels : List (String × String)
  CreationTimestamp : Int
  Finalizers : List String
  ResourceVersion : String
  Generation : Int
  SelfLink : String
  UID : String
  Spec : MachinePoolSpec
  Status : MachinePoolStatus
  deriving DecidableEq, Repr

/-- The part of the OCM `cmv1.Cluster` the package reads.  The getters of the OCM SDK
are nil-safe, so a missing cloud provider reads as the empty identifier. -/
structure Cluster where
  ID : String
  Name : String
  CloudProviderID : String
  deriving DecidableEq, Repr

/-- A `client.Client` as built by `k8s.New` / `k8s.NewAsBackplaneClusterAdmin`: the
cluster it talks to and whether it is elevated. -/
structure Client where
  clusterID : String
  elevated : Bool
  deriving DecidableEq, Repr

end Resize

/-- The receiver `Resize` of `cmd.go:18`. -/
structure Resize where
  client : Option Resize.Client
  hive : Option Resize.Client
  hiveAdmin : Option Resize.Client
  cluster : Option Resize.Cluster
  clusterId : String
  instanceType : String
  deriving DecidableEq, Repr

namespace Resize

/-- The expression `r.cluster.CloudProvider().ID()`: nil-safe getters, so a nil cluster
yields the empty string. -/
def cloudProviderID (r : Resize) : String :=
  match r.cluster with
  | some c => c.CloudProviderID
  | none => ""

/-! ## `embiggenMachinePool` and `getInstanceType` -/

/-- The map literal `embiggen` of `infra_node.go:298-307`, as an association list (a Go
map literal has no duplicate keys). -/
def embiggen : List (String × String) :=
  [ ("m5.xlarge", "r5.xlarge"),
    ("m5.2xlarge", "r5.2xlarge"),
    ("r5.xlarge", "r5.2xlarge"),
    ("r5.2xlarge", "r5.4xlarge"),
    ("r5.4xlarge", "r5.8xlarge"),
    ("custom-4-32768-ext", "custom-8-65536-ext"),
    ("custom-8-65536-ext", "custom-16-131072-ext") ]

/-- The function `getInstanceType` of `infra_node.go:348-356`. -/
def getInstanceType (mp : MachinePool) : Outcome String :=
  match mp.Spec.Platform.AWS with
  | some a => .ok a.InstanceType
  | none =>
    match mp.Spec.Platform.GCP with
    | some g => .ok g.InstanceType
    | none => .err .unsupportedPlatform

/-- Lines 309-319 of `infra_node.go`: the deep copy with the server-assigned fields
unset. -/
def unsetRegenerated (mp : MachinePool) : MachinePool :=
  { mp with
    CreationTimestamp := 0
    Finalizers := []
    ResourceVersion := ""
    Generation := 0
    SelfLink := ""
    UID := ""
    Status := MachinePoolStatus.zero }

/-- Lines 336-343 of `infra_node.go`: the switch on the cluster's cloud provider, writing
the instance type through the provider pointer of the copy. -/
def setInstanceType (providerID : String) (instanceType : String) (newMp : MachinePool) :
    Outcome MachinePool :=
  if providerID = "aws" then
    match newMp.Spec.Platform.AWS with
    | some a =>
      .ok { newMp with Spec := { newMp.Spec with Platform :=
              { newMp.Spec.Platform with AWS := some { a with InstanceType := instanceType } } } }
    | none => .nilDeref
  else if providerID = "gcp" then
    match newMp.Spec.Platform.GCP with
    | some g =>
      .ok { newMp with Spec := { newMp.Spec with Platform :=
              { newMp.Spec.Platform with GCP := some { g with InstanceType := instanceType } } } }
    | none => .nilDeref
  else .err (.cloudProviderNotSupported providerID)

/-- What a call of `embiggenMachinePool` leaves behind: the receiver and the argument as
they are after the call, and the returned pair. -/
structure EmbiggenResult where
  recv : Resize
  mp : MachinePool
  out : Outcome MachinePool
  deriving DecidableEq, Repr

/-- The method `embiggenMachinePool` of `infra_node.go:297-346`, over an arbitrary catalog.
The argument `mp` is only read (`DeepCopyInto` writes its destination), the
receiver is written at line 333. -/
def embiggenMachinePoolWith (catalog : List (String × String)) (r : Resize)
    (mp : MachinePool) : EmbiggenResult :=
  let newMp := unsetRegenerated mp
  if r.instanceType ≠ "" then
    { recv := r, mp := mp, out := setInstanceType (cloudProviderID r) r.instanceType newMp }
  else
    match getInstanceType mp with
    | .err e => { recv := r, mp := mp, out := .err e }
    | .nilDeref => { recv := r, mp := mp, out := .nilDeref }
    | .ok instanceType =>
      match catalog.lookup instanceType with
      | none => { recv := r, mp := mp, out := .err (.resizingNotSupported instanceType) }
      | some next =>
        let r1 := { r with instanceType := next }
        { recv := r1, mp := mp, out := setInstanceType (cloudProviderID r1) r1.instanceType newMp }

/-- The method `embiggenMachinePool` with the catalog of the source. -/
def embiggenMachinePool (r : Resize) (mp : MachinePool) : EmbiggenResult :=
  embiggenMachinePoolWith embiggen r mp

/-! ## Nodes and the poll conditions -/

/-- The `corev1.NodeCondition`, reduced to its type and status. -/
structure NodeCondition where
  Type_ : String
  Status : String
  deriving DecidableEq, Repr

/-- The `corev1.NodeStatus`, reduced to its condition list. -/
structure NodeStatus where
  Conditions : List NodeCondition
  deriving DecidableEq, Repr

/-- The `corev1.Node`. -/
structure Node where
  Name : String
  Labels : List (String × String)
  Status : NodeStatus
  deriving DecidableEq, Repr

/-- The constant `corev1.NodeReady`. -/
def NodeReady : String := "Ready"

/-- The constant `corev1.ConditionTrue`. -/
def ConditionTrue : String := "True"

/-- Two's-complement wrap-around of Go's 64-bit `int`. -/
def wrap64 (x : Int) : Int := (x + 2 ^ 63) % 2 ^ 64 - 2 ^ 63

/-- The inner loop of `infra_node.go:114-121` (and `179-186`): one increment of
`readyNodes` per condition of type Ready and status True.  The counter is a natural
number: a listing held in memory has fewer than `2 ^ 63` conditions. -/
def countConditions (conds : List NodeCondition) (readyNodes : Nat) : Nat :=
  conds.foldl
    (fun acc cond =>
      if cond.Type_ = NodeReady then
        if cond.Status = ConditionTrue then acc + 1 else acc
      else acc)
    readyNodes

/-- The outer loop of `infra_node.go:111-122` (and `176-187`), from `readyNodes := 0`. -/
def readyNodes (items : List Node) : Nat :=
  items.foldl (fun acc node => countConditions node.Status.Conditions acc) 0

/-- The selector string parsed at every tick of the node polls. -/
def infraSelector : String := "node-role.kubernetes.io/infra="

/-- The poll condition of `infra_node.go:100-131` and, verbatim again, of `165-198`.
`parse` is the result of `labels.Parse`, `listed` the result of `r.client.List`
at this tick; the replica pointer is dereferenced at line 112 (177). -/
def readyCondition (originalMp : MachinePool) (parse : Option Err)
    (listed : Except Err (List Node)) : Outcome Bool :=
  match parse with
  | some e => .err e
  | none =>
    match listed with
    | .error e => .err e
    | .ok items =>
      match originalMp.Spec.Replicas with
      | none => .nilDeref
      | some n => .ok (decide (wrap64 (n * 2) ≤ (readyNodes items : Int)))

/-- The predicate `apierrors.IsNotFound`. -/
def IsNotFound : Err → Bool
  | .notFound _ => true
  | _ => false

/-- The poll condition of `infra_node.go:142-154` and `207-219`: `got` is the result of
`r.hive.Get` at this tick. -/
def absentCondition (got : Except Err MachinePool) : Outcome Bool :=
  match got with
  | .error e => if IsNotFound e then .ok true else .err e
  | .ok _ => .ok false

/-- The poll condition of `infra_node.go:225-244`: the raw node count against the
original replica count. -/
def steadyCondition (originalMp : MachinePool) (parse : Option Err)
    (listed : Except Err (List Node)) : Outcome Bool :=
  match parse with
  | some e => .err e
  | none =>
    match listed with
    | .error e => .err e
    | .ok items =>
      match originalMp.Spec.Replicas with
      | none => .nilDeref
      | some n => .ok (decide ((items.length : Int) = n))

/-- What the world answers at the attempts of one `wait.PollImmediate`: the immediate
first attempt, then one attempt per interval until the timeout. -/
structure Ticks (α : Type) where
  first : α
  later : List α

/-- The attempts of a poll in order. -/
def Ticks.all {α : Type} (t : Ticks α) : List α := t.first :: t.later

/-- The loop of `wait.PollImmediate` over the attempts that fit in the timeout: stop with
success when the condition reports done, stop with its error when it reports
one, go on otherwise, and give `wait.ErrWaitTimeout` when the attempts run out. -/
def pollLoop {α : Type} (condition : α → Outcome Bool) : List α → Outcome Unit
  | [] => .err .waitTimeout
  | t :: ts =>
    match condition t with
    | .ok true => .ok ()
    | .ok false => pollLoop condition ts
    | .err e => .err e
    | .nilDeref => .nilDeref

/-- The call `wait.PollImmediate(interval, timeout, condition)`. -/
def PollImmediate {α : Type} (ticks : Ticks α) (condition : α → Outcome Bool) : Outcome Unit :=
  pollLoop condition ticks.all

/-! ## The world and the calls issued against it -/

/-- The `corev1.Namespace`, reduced to its name. -/
structure Namespace where
  Name : String
  deriving DecidableEq, Repr

/-- The `servicelog.PostCmdOptions` fields set by `generateServiceLog`. -/
structure PostCmdOptions where
  Template : String
  ClusterId : String
  TemplateParams : List String
  deriving DecidableEq, Repr

/-- The answers of everything outside the package during one run. -/
structure World where
  /-- Result of `machinev1beta1.Install(scheme)`. -/
  machineInstall : Option Err
  /-- Result of `hivev1.AddToScheme(scheme)`. -/
  hiveAddToScheme : Option Err
  /-- Result of `corev1.AddToScheme(scheme)`. -/
  coreAddToScheme : Option Err
  /-- Result of `utils.CreateConnection()`. -/
  createConnection : Option Err
  /-- Result of `utils.GetClusterAnyStatus(ocmClient, id)`. -/
  getClusterAnyStatus : String → Except Err Cluster
  /-- Result of `utils.GetHiveCluster(id)`. -/
  getHiveCluster : String → Except Err Cluster
  /-- Result of `k8s.New(id, ...)`. -/
  k8sNew : String → Option Err
  /-- Result of `k8s.NewAsBackplaneClusterAdmin(id, ...)`. -/
  k8sNewAsBackplaneClusterAdmin : String → Option Err
  /-- Result of `labels.Parse(selector)`. -/
  labelsParse : String → Option Err
  /-- Result of `r.hive.List` of the namespaces carrying the cluster label. -/
  listNamespaces : Except Err (List Namespace)
  /-- Result of `r.hive.List` of the machine pools of a namespace. -/
  listMachinePools : String → Except Err (List MachinePool)
  /-- Result of `utils.ConfirmPrompt()`. -/
  confirmPrompt : Bool
  /-- Result of `r.hiveAdmin.Create(ctx, tempMp)`. -/
  createTemp : Option Err
  /-- Node listings seen by the poll of lines 100-133. -/
  doubleCapacity : Ticks (Except Err (List Node))
  /-- Result of `r.hiveAdmin.Delete(ctx, originalMp)`. -/
  deleteOriginal : Option Err
  /-- Results of `r.hive.Get` seen by the poll of lines 142-156. -/
  originalAbsent : Ticks (Except Err MachinePool)
  /-- Result of `r.hiveAdmin.Create(ctx, newMp)`. -/
  createNew : Option Err
  /-- Node listings seen by the poll of lines 165-198. -/
  finalCapacity : Ticks (Except Err (List Node))
  /-- Result of `r.hiveAdmin.Delete(ctx, tempMp)`. -/
  deleteTemp : Option Err
  /-- Results of `r.hive.Get` seen by the poll of lines 207-221. -/
  tempAbsent : Ticks (Except Err MachinePool)
  /-- Node listings seen by the poll of lines 225-246. -/
  steadyCount : Ticks (Except Err (List Node))
  /-- Result of `postCmd.Run()`. -/
  servicelogRun : PostCmdOptions → Option Err

/-- A call with an effect outside the process. -/
inductive Call where
  /-- The call `r.hiveAdmin.Create(ctx, mp)`. -/
  | create (mp : MachinePool)
  /-- The call `r.hiveAdmin.Delete(ctx, mp)`. -/
  | delete (mp : MachinePool)
  /-- The call `postCmd.Run()`. -/
  | post (cmd : PostCmdOptions)
  deriving DecidableEq, Repr

/-- A call that creates or deletes a pool resource. -/
def Call.isPoolMutation : Call → Bool
  | .create _ => true
  | .delete _ => true
  | .post _ => false

/-! ## `New`, `getInfraMachinePool`, `generateServiceLog` and `RunInfra` -/

/-- The method `New` of `cmd.go:41-108`: the receiver after the call and the returned error.
The cluster and its identifier are stored at lines 72-73, before the later
steps can fail; the clients are stored at the end. -/
def New (w : World) (r : Resize) : Resize × Option Err :=
  match w.machineInstall with
  | some e => (r, some e)
  | none =>
  match w.hiveAddToScheme with
  | some e => (r, some e)
  | none =>
  match w.coreAddToScheme with
  | some e => (r, some e)
  | none =>
  match w.createConnection with
  | some e => (r, some e)
  | none =>
  match w.getClusterAnyStatus r.clusterId with
  | .error e => (r, some (.failedToGetOCMClusterInfo r.clusterId e))
  | .ok cluster =>
  let r1 := { r with cluster := some cluster, clusterId := cluster.ID }
  match w.getHiveCluster cluster.ID with
  | .error e => (r1, some e)
  | .ok hive =>
  match w.k8sNew cluster.ID with
  | some e => (r1, some e)
  | none =>
  match w.k8sNew hive.ID with
  | some e => (r1, some e)
  | none =>
  match w.k8sNewAsBackplaneClusterAdmin hive.ID with
  | some e => (r1, some e)
  | none =>
  ({ r1 with
      clusterId := cluster.ID
      client := some { clusterID := cluster.ID, elevated := false }
      hive := some { clusterID := hive.ID, elevated := false }
      hiveAdmin := some { clusterID := hive.ID, elevated := true } }, none)

/-- The method `getInfraMachinePool` of `infra_node.go:258-295`. -/
def getInfraMachinePool (w : World) (r : Resize) : Outcome MachinePool :=
  match w.labelsParse ("api.openshiftus.com/id=" ++ r.clusterId) with
  | some e => .err e
  | none =>
    match w.listNamespaces with
    | .error e => .err e
    | .ok items =>
      match items with
      | [ns0] =>
        match w.listMachinePools ns0.Name with
        | .error e => .err e
        | .ok mpItems =>
          match mpItems.find? (fun mp => mp.Spec.Name = "infra") with
          | some mp => .ok mp
          | none => .err (.infraMachinePoolNotFound ns0.Name)
      | _ => .err (.expectedOneNamespace items.length r.clusterId)

/-- The constant `resizedInfraNodeServiceLogTemplate`. -/
def resizedInfraNodeServiceLogTemplate : String :=
  "https://raw.githubusercontent.com/openshift/managed-notifications/master/osd/infranode_resized_auto.json"

/-- The function `generateServiceLog` of `infra_node.go:358-364`. -/
def generateServiceLog (instanceType clusterId : String) : PostCmdOptions :=
  { Template := resizedInfraNodeServiceLogTemplate
    ClusterId := clusterId
    TemplateParams := ["INSTANCE_TYPE=" ++ instanceType] }

/-- Lines 79-81 of `infra_node.go`: the deep copy of `newMp` with "2" appended to the
resource name and to the pool name. -/
def tempMp (newMp : MachinePool) : MachinePool :=
  { newMp with
    Name := newMp.Name ++ "2"
    Spec := { newMp.Spec with Name := newMp.Spec.Name ++ "2" } }

/-- What a run leaves behind: the calls issued, in order, and how the run ended. -/
structure RunResult where
  calls : List Call
  out : Outcome Unit
  deriving DecidableEq, Repr

/-- Sequencing of `if err := ...; err != nil { return err }`: the calls `calls` are
issued and end in `o`; an error or a panic ends the run, a value goes on to `k`. -/
def step {α : Type} (calls : List Call) (o : Outcome α) (k : α → RunResult) : RunResult :=
  match o with
  | .ok v => { calls := calls ++ (k v).calls, out := (k v).out }
  | .err e => { calls := calls, out := .err e }
  | .nilDeref => { calls := calls, out := .nilDeref }

/-- An error return as an outcome. -/
def ofError : Option Err → Outcome Unit
  | some e => .err e
  | none => .ok ()

/-- Lines 65-67 of `infra_node.go`: `r.New()` with its error wrapped. -/
def runNew (w : World) (r : Resize) : Outcome Resize :=
  match New w r with
  | (_, some e) => .err (.failedToInitialize e)
  | (r1, none) => .ok r1

/-- Lines 83-86 of `infra_node.go`: `getInstanceType(tempMp)` with its error wrapped. -/
def parseInstanceType (mp : MachinePool) : Outcome String :=
  match getInstanceType mp with
  | .ok t => .ok t
  | .err e => .err (.failedToParseInstanceType e)
  | .nilDeref => .nilDeref

/-- Line 224 of `infra_node.go`: the dereference of the replica pointer in the log call. -/
def derefReplicas (mp : MachinePool) : Outcome Int :=
  match mp.Spec.Replicas with
  | some n => .ok n
  | none => .nilDeref

/-- Line 248 of `infra_node.go`: the read `newMp.Spec.Platform.AWS.InstanceType`. -/
def awsInstanceType (mp : MachinePool) : Outcome String :=
  match mp.Spec.Platform.AWS with
  | some a => .ok a.InstanceType
  | none => .nilDeref

/-- Lines 248-255 of `infra_node.go`: the service log is posted and the error of the
post is printed, not returned. -/
def notify (w : World) (postCmd : PostCmdOptions) : RunResult :=
  match w.servicelogRun postCmd with
  | some _ => { calls := [.post postCmd], out := .ok () }
  | none => { calls := [.post postCmd], out := .ok () }

/-- Lines 95-256 of `infra_node.go`, the part of `RunInfra` after the confirmation: the
four pool mutations, each followed by its poll, the steady-count poll and the service
log.  The write-back of server-assigned fields by `Create` into its argument is not
modelled. -/
def cutover (w : World) (clusterId : String) (originalMp newMp : MachinePool) : RunResult :=
  step [.create (tempMp newMp)] (ofError w.createTemp) fun _ =>
  step [] (PollImmediate w.doubleCapacity
    (readyCondition originalMp (w.labelsParse infraSelector))) fun _ =>
  step [.delete originalMp] (ofError w.deleteOriginal) fun _ =>
  step [] (PollImmediate w.originalAbsent absentCondition) fun _ =>
  step [.create newMp] (ofError w.createNew) fun _ =>
  step [] (PollImmediate w.finalCapacity
    (readyCondition originalMp (w.labelsParse infraSelector))) fun _ =>
  step [.delete (tempMp newMp)] (ofError w.deleteTemp) fun _ =>
  step [] (PollImmediate w.tempAbsent absentCondition) fun _ =>
  step [] (derefReplicas originalMp) fun _ =>
  step [] (PollImmediate w.steadyCount
    (steadyCondition originalMp (w.labelsParse infraSelector))) fun _ =>
  step [] (awsInstanceType newMp) fun instanceType =>
  notify w (generateServiceLog instanceType clusterId)

/-- The method `RunInfra` of `infra_node.go:64-256`: initialisation, discovery of the
original pool, the plan (`newMp` and `tempMp`), the confirmation prompt, and then
`cutover`.  The receiver passed on is the one `embiggenMachinePool` leaves. -/
def RunInfra (w : World) (r : Resize) : RunResult :=
  step [] (runNew w r) fun r1 =>
  step [] (getInfraMachinePool w r1) fun originalMp =>
  step [] (embiggenMachinePool r1 originalMp).out fun newMp =>
  step [] (parseInstanceType (tempMp newMp)) fun _ =>
  if !w.confirmPrompt then { calls := [], out := .ok () }
  else cutover w (embiggenMachinePool r1 originalMp).recv.clusterId originalMp newMp

/-! ## Sample inputs -/

/-- An AWS infra pool of three `m5.xlarge` replicas, as read back from the hive API. -/
def awsPool : MachinePool :=
  { Namespace := "uhc-production-1a2b3c"
    Name := "mycluster-infra"
    Labels := [("api.openshift.com/id", "1a2b3c")]
    CreationTimestamp := 1700000000
    Finalizers := ["hive.openshift.io/remotemachineset"]
    ResourceVersion := "48211"
    Generation := 4
    SelfLink := "/apis/hive.openshift.io/v1/machinepools/mycluster-infra"
    UID := "0f1e2d3c"
    Spec :=
      { Name := "infra"
        Replicas := some 3
        Platform := { AWS := some { InstanceType := "m5.xlarge", Zones := ["us-east-1a"] }, GCP := none }
        Labels := [("node-role.kubernetes.io/infra", "")] }
    Status := { Replicas := 3, MachineSets := ["mycluster-infra-us-east-1a"], Conditions := [] } }

/-- The pool `embiggenMachinePool` derives from `awsPool` on an `aws` cluster. -/
def awsPoolResized : MachinePool :=
  { Namespace := "uhc-production-1a2b3c"
    Name := "mycluster-infra"
    Labels := [("api.openshift.com/id", "1a2b3c")]
    CreationTimestamp := 0
    Finalizers := []
    ResourceVersion := ""
    Generation := 0
    SelfLink := ""
    UID := ""
    Spec :=
      { Name := "infra"
        Replicas := some 3
        Platform := { AWS := some { InstanceType := "r5.xlarge", Zones := ["us-east-1a"] }, GCP := none }
        Labels := [("node-role.kubernetes.io/infra", "")] }
    Status := MachinePoolStatus.zero }

/-- The same pool on GCP, of type `custom-4-32768-ext`. -/
def gcpPool : MachinePool :=
  { awsPool with
    Spec := { awsPool.Spec with
      Platform := { AWS := none, GCP := some { InstanceType := "custom-4-32768-ext", Zones := ["us-east1-b"] } } } }

/-- The AWS pool at the terminus of the ladder, `r5.8xlarge`. -/
def terminusPool : MachinePool :=
  { awsPool with
    Spec := { awsPool.Spec with
      Platform := { AWS := some { InstanceType := "r5.8xlarge", Zones := ["us-east-1a"] }, GCP := none } } }

/-- A pool with neither the AWS nor the GCP platform populated. -/
def barePool : MachinePool :=
  { awsPool with Spec := { awsPool.Spec with Platform := { AWS := none, GCP := none } } }

/-- A receiver after `New`, for a cluster of the given cloud provider, with the given
`--instance-type` flag. -/
def receiverFor (provider override : String) : Resize :=
  { client := some { clusterID := "1a2b3c", elevated := false }
    hive := some { clusterID := "hive01", elevated := false }
    hiveAdmin := some { clusterID := "hive01", elevated := true }
    cluster := some { ID := "1a2b3c", Name := "mycluster", CloudProviderID := provider }
    clusterId := "1a2b3c"
    instanceType := override }

/-- An infra node reporting the Ready condition once, with status True. -/
def readyNode (name : String) : Node :=
  { Name := name
    Labels := [("node-role.kubernetes.io/infra", "")]
    Status := { Conditions := [{ Type_ := "MemoryPressure", Status := "False" },
                               { Type_ := "Ready", Status := "True" }] } }

/-- An infra node that is not Ready yet. -/
def pendingNode (name : String) : Node :=
  { Name := name
    Labels := [("node-role.kubernetes.io/infra", "")]
    Status := { Conditions := [{ Type_ := "Ready", Status := "Unknown" }] } }

/-- An infra node whose condition list carries the Ready condition twice, both with
status True. -/
def twiceReadyNode : Node :=
  { Name := "ip-10-0-1-17"
    Labels := [("node-role.kubernetes.io/infra", "")]
    Status := { Conditions := [{ Type_ := "Ready", Status := "True" },
                               { Type_ := "Ready", Status := "True" }] } }

/-- A pool like `awsPool` with a single replica. -/
def singlePool : MachinePool :=
  { awsPool with Spec := { awsPool.Spec with Replicas := some 1 } }

/-- A campaign in which every call and every wait succeeds, for a cluster of the given
cloud provider whose hive namespace holds `pool` (of three replicas); the service log
post ends as `posted`.  The sixth Ready node shows up at the second attempt of the
double-capacity poll, the original pool is gone at the second look. -/
def smoothWorld (provider : String) (pool : MachinePool) (posted : Option Err) : World :=
  { machineInstall := none
    hiveAddToScheme := none
    coreAddToScheme := none
    createConnection := none
    getClusterAnyStatus := fun id => .ok { ID := id, Name := "mycluster", CloudProviderID := provider }
    getHiveCluster := fun _ => .ok { ID := "hive01", Name := "hive-shard", CloudProviderID := "aws" }
    k8sNew := fun _ => none
    k8sNewAsBackplaneClusterAdmin := fun _ => none
    labelsParse := fun _ => none
    listNamespaces := .ok [{ Name := "uhc-production-1a2b3c" }]
    listMachinePools := fun _ => .ok [{ pool with Name := "mycluster-worker", Spec := { pool.Spec with Name := "worker" } }, pool]
    confirmPrompt := true
    createTemp := none
    doubleCapacity :=
      { first := .ok [readyNode "a", readyNode "b", readyNode "c", readyNode "d",
                      readyNode "e", pendingNode "f"]
        later := [.ok [readyNode "a", readyNode "b", readyNode "c", readyNode "d",
                       readyNode "e", readyNode "f"]] }
    deleteOriginal := none
    originalAbsent := { first := .ok pool, later := [.error (.notFound "machinepools")] }
    createNew := none
    finalCapacity :=
      { first := .ok [readyNode "d", readyNode "e", readyNode "f", readyNode "g",
                      readyNode "h", readyNode "i"]
        later := [] }
    deleteTemp := none
    tempAbsent := { first := .error (.notFound "machinepools"), later := [] }
    steadyCount := { first := .ok [readyNode "g", readyNode "h", readyNode "i"], later := [] }
    servicelogRun := fun _ => posted }

/-- A world like `smoothWorld` in which the hive namespace holds only a worker pool. -/
def noInfraWorld : World :=
  { smoothWorld "aws" awsPool none with
    listMachinePools := fun _ =>
      .ok [{ awsPool with Name := "mycluster-worker", Spec := { awsPool.Spec with Name := "worker" } }] }

/-- A receiver as the command line leaves it: the cluster identifier set, no override. -/
def freshReceiver : Resize :=
  { client := none, hive := none, hiveAdmin := none, cluster := none
    clusterId := "1a2b3c", instanceType := "" }

/-- A condition of type Ready with status True. -/
def readyTrue (cond : NodeCondition) : Bool :=
  decide (cond.Type_ = NodeReady) && decide (cond.Status = ConditionTrue)

/-- The specification's reading of the capacity count: the number of listed nodes that
expose a Ready condition with status True, each node counted once. -/
def specReadyNodeCount (items : List Node) : Nat :=
  (items.filter fun node => node.Status.Conditions.any readyTrue).length

/-- The pool `embiggenMachinePool` derives from `gcpPool` on a `gcp` cluster. -/
def gcpPoolResized : MachinePool :=
  { awsPoolResized with
    Spec := { awsPoolResized.Spec with
      Platform := { AWS := none, GCP := some { InstanceType := "custom-8-65536-ext", Zones := ["us-east1-b"] } } } }

/-- The server-assigned fields unset by `embiggenMachinePool` all hold their zero value. -/
def Cleared (mp : MachinePool) : Prop :=
  mp.CreationTimestamp = 0 ∧ mp.Finalizers = [] ∧ mp.ResourceVersion = "" ∧
  mp.Generation = 0 ∧ mp.SelfLink = "" ∧ mp.UID = "" ∧ mp.Status = MachinePoolStatus.zero

instance (mp : MachinePool) : Decidable (Cleared mp) := by
  unfold Cleared
  infer_instance

/-! ## Facts about `embiggenMachinePool` -/

theorem setInstanceType_aws (t : String) (mp : MachinePool) (a : AWSMachinePoolPlatform)
    (h : mp.Spec.Platform.AWS = some a) :
    setInstanceType "aws" t mp =
      .ok { mp with Spec := { mp.Spec with Platform :=
              { mp.Spec.Platform with AWS := some { a with InstanceType := t } } } } := by
  simp [setInstanceType, h]

theorem setInstanceType_gcp (t : String) (mp : MachinePool) (g : GCPMachinePool)
    (h : mp.Spec.Platform.GCP = some g) :
    setInstanceType "gcp" t mp =
      .ok { mp with Spec := { mp.Spec with Platform :=
              { mp.Spec.Platform with GCP := some { g with InstanceType := t } } } } := by
  simp [setInstanceType, h]

theorem setInstanceType_other (p t : String) (mp : MachinePool) (h1 : p ≠ "aws")
    (h2 : p ≠ "gcp") : setInstanceType p t mp = .err (.cloudProviderNotSupported p) := by
  simp [setInstanceType, h1, h2]

theorem embiggenWith_override (catalog : List (String × String)) (r : Resize) (mp : MachinePool)
    (h : r.instanceType ≠ "") :
    embiggenMachinePoolWith catalog r mp =
      { recv := r, mp := mp,
        out := setInstanceType (cloudProviderID r) r.instanceType (unsetRegenerated mp) } := by
  simp [embiggenMachinePoolWith, h]

theorem embiggenWith_hit (catalog : List (String × String)) (r : Resize) (mp : MachinePool)
    (t next : String) (h : r.instanceType = "") (ht : getInstanceType mp = .ok t)
    (hn : catalog.lookup t = some next) :
    embiggenMachinePoolWith catalog r mp =
      { recv := { r with instanceType := next }, mp := mp,
        out := setInstanceType (cloudProviderID r) next (unsetRegenerated mp) } := by
  simp [embiggenMachinePoolWith, h, ht, hn, cloudProviderID]

theorem embiggenWith_miss (catalog : List (String × String)) (r : Resize) (mp : MachinePool)
    (t : String) (h : r.instanceType = "") (ht : getInstanceType mp = .ok t)
    (hn : catalog.lookup t = none) :
    embiggenMachinePoolWith catalog r mp =
      { recv := r, mp := mp, out := .err (.resizingNotSupported t) } := by
  simp [embiggenMachinePoolWith, h, ht, hn]

theorem embiggenWith_noPlatform (catalog : List (String × String)) (r : Resize) (mp : MachinePool)
    (e : Err) (h : r.instanceType = "") (ht : getInstanceType mp = .err e) :
    embiggenMachinePoolWith catalog r mp = { recv := r, mp := mp, out := .err e } := by
  simp [embiggenMachinePoolWith, h, ht]

theorem getInstanceType_ne_nilDeref (mp : MachinePool) : getInstanceType mp ≠ .nilDeref := by
  unfold getInstanceType
  split
  · simp
  · split <;> simp

/-! ## C1: catalog-driven sizing -/

/-- C1, refuted as stated: `awsPool` has current type `m5.xlarge`, a key of the catalog, and no
override is set, yet on a cluster whose cloud provider is `azure` the call returns the
cloud-provider-not-supported error and no pool. -/
theorem embiggen_catalog_key_can_fail :
    getInstanceType awsPool = .ok "m5.xlarge" ∧
    embiggen.lookup "m5.xlarge" = some "r5.xlarge" ∧
    (receiverFor "azure" "").instanceType = "" ∧
    (embiggenMachinePool (receiverFor "azure" "") awsPool).out
      = .err (.cloudProviderNotSupported "azure") := by
  decide

/-- C1, amended: with no override and a pool whose current instance type `t` is read by
`getInstanceType`, a `t` outside the catalog gives the unsupported-instance-type error
and no pool; a `t` in the catalog gives, on an `aws` cluster with the AWS field populated
or a `gcp` cluster with the GCP field populated, a pool whose field of that provider
holds the catalog value, and on any other cloud provider the
cloud-provider-not-supported error. -/
theorem embiggen_without_override (r : Resize) (mp : MachinePool) (t : String)
    (hr : r.instanceType = "") (ht : getInstanceType mp = .ok t) :
    (embiggen.lookup t = none →
      (embiggenMachinePool r mp).out = .err (.resizingNotSupported t)) ∧
    (∀ next, embiggen.lookup t = some next →
      (cloudProviderID r = "aws" → ∀ a, mp.Spec.Platform.AWS = some a →
        ∃ newMp, (embiggenMachinePool r mp).out = .ok newMp ∧
          newMp.Spec.Platform.AWS = some { a with InstanceType := next } ∧
          getInstanceType newMp = .ok next) ∧
      (cloudProviderID r = "gcp" → ∀ g, mp.Spec.Platform.GCP = some g →
        ∃ newMp, (embiggenMachinePool r mp).out = .ok newMp ∧
          newMp.Spec.Platform.GCP = some { g with InstanceType := next } ∧
          (mp.Spec.Platform.AWS = none → getInstanceType newMp = .ok next)) ∧
      (cloudProviderID r ≠ "aws" → cloudProviderID r ≠ "gcp" →
        (embiggenMachinePool r mp).out = .err (.cloudProviderNotSupported (cloudProviderID r)))) := by
  refine ⟨fun hn => ?_, fun next hn => ⟨fun hp a ha => ?_, fun hp g hg => ?_, fun h1 h2 => ?_⟩⟩
  · simp [embiggenMachinePool, embiggenWith_miss embiggen r mp t hr ht hn]
  · have hu : (unsetRegenerated mp).Spec.Platform.AWS = some a := ha
    rw [embiggenMachinePool, embiggenWith_hit embiggen r mp t next hr ht hn, hp,
      setInstanceType_aws next _ a hu]
    exact ⟨_, rfl, rfl, by simp [getInstanceType]⟩
  · have hu : (unsetRegenerated mp).Spec.Platform.GCP = some g := hg
    rw [embiggenMachinePool, embiggenWith_hit embiggen r mp t next hr ht hn, hp,
      setInstanceType_gcp next _ g hu]
    exact ⟨_, rfl, rfl, fun hnone => by simp [getInstanceType, unsetRegenerated, hnone]⟩
  · rw [embiggenMachinePool, embiggenWith_hit embiggen r mp t next hr ht hn]
    exact setInstanceType_other _ _ _ h1 h2

/-- Witness for C1: the scenarios of the specification.  On an `aws` cluster `m5.xlarge`
becomes `r5.xlarge`. -/
theorem embiggen_without_override_witness :
    ∃ newMp, (embiggenMachinePool (receiverFor "aws" "") awsPool).out = .ok newMp ∧
      newMp.Spec.Platform.AWS = some { InstanceType := "r5.xlarge", Zones := ["us-east-1a"] } ∧
      getInstanceType newMp = .ok "r5.xlarge" :=
  ((embiggen_without_override (receiverFor "aws" "") awsPool "m5.xlarge" (by decide) (by decide)).2
    "r5.xlarge" (by decide)).1 (by decide) _ rfl

/-- The remaining scenarios of the specification: on a `gcp` cluster
`custom-4-32768-ext` becomes `custom-8-65536-ext`, and the ladder terminus `r5.8xlarge`
is refused with the receiver untouched. -/
theorem embiggen_scenarios :
    (embiggenMachinePool (receiverFor "gcp" "") gcpPool).out = .ok gcpPoolResized ∧
    getInstanceType gcpPoolResized = .ok "custom-8-65536-ext" ∧
    embiggenMachinePool (receiverFor "aws" "") terminusPool
      = { recv := receiverFor "aws" "", mp := terminusPool,
          out := .err (.resizingNotSupported "r5.8xlarge") } := by
  decide

/-! ## C5: the override instance type -/

/-- C5, refuted as stated: `awsPool` has its AWS field populated and the override
`r5.4xlarge` is not empty, yet on a cluster whose cloud provider identifier is empty
(neither `aws` nor `gcp`) the call returns the cloud-provider-not-supported error. -/
theorem embiggen_override_can_fail :
    awsPool.Spec.Platform.AWS ≠ none ∧
    (receiverFor "" "r5.4xlarge").instanceType ≠ "" ∧
    (embiggenMachinePool (receiverFor "" "r5.4xlarge") awsPool).out
      = .err (.cloudProviderNotSupported "") := by
  decide

/-- C5, amended: with a non-empty override, whatever the catalog and the pool's current
type, the call succeeds on an `aws` cluster when the pool's AWS field is populated and on
a `gcp` cluster when its GCP field is populated, and the instance type of that provider
in the returned pool is the override exactly, the other fields of the platform being
kept; on any other cloud provider it returns the cloud-provider-not-supported error. -/
theorem embiggen_with_override (catalog : List (String × String)) (r : Resize)
    (mp : MachinePool) (hr : r.instanceType ≠ "") :
    (cloudProviderID r = "aws" → ∀ a, mp.Spec.Platform.AWS = some a →
      ∃ newMp, (embiggenMachinePoolWith catalog r mp).out = .ok newMp ∧
        newMp.Spec.Platform.AWS = some { a with InstanceType := r.instanceType } ∧
        newMp.Spec.Platform.GCP = mp.Spec.Platform.GCP) ∧
    (cloudProviderID r = "gcp" → ∀ g, mp.Spec.Platform.GCP = some g →
      ∃ newMp, (embiggenMachinePoolWith catalog r mp).out = .ok newMp ∧
        newMp.Spec.Platform.GCP = some { g with InstanceType := r.instanceType } ∧
        newMp.Spec.Platform.AWS = mp.Spec.Platform.AWS) ∧
    (cloudProviderID r ≠ "aws" → cloudProviderID r ≠ "gcp" →
      (embiggenMachinePoolWith catalog r mp).out
        = .err (.cloudProviderNotSupported (cloudProviderID r))) := by
  rw [embiggenWith_override catalog r mp hr]
  refine ⟨fun hp a ha => ?_, fun hp g hg => ?_, fun h1 h2 => ?_⟩
  · have hu : (unsetRegenerated mp).Spec.Platform.AWS = some a := ha
    simp only [hp, setInstanceType_aws r.instanceType _ a hu]
    exact ⟨_, rfl, rfl, rfl⟩
  · have hu : (unsetRegenerated mp).Spec.Platform.GCP = some g := hg
    simp only [hp, setInstanceType_gcp r.instanceType _ g hu]
    exact ⟨_, rfl, rfl, rfl⟩
  · exact setInstanceType_other _ _ _ h1 h2

/-- Witness for C5: on a `gcp` cluster the GCP pool is resized to the override
`n2-highmem-8`, a type the catalog does not mention. -/
theorem embiggen_with_override_witness :
    ∃ newMp, (embiggenMachinePoolWith embiggen (receiverFor "gcp" "n2-highmem-8") gcpPool).out
        = .ok newMp ∧
      newMp.Spec.Platform.GCP = some { InstanceType := "n2-highmem-8", Zones := ["us-east1-b"] } ∧
      newMp.Spec.Platform.AWS = none :=
  (embiggen_with_override embiggen (receiverFor "gcp" "n2-highmem-8") gcpPool (by decide)).2.1
    (by decide) _ rfl

/-! ## C6: pools without a supported platform -/

/-- C6, refuted as stated: `barePool` has neither platform populated; with the override
`r5.xlarge` supplied on a cluster whose cloud provider is `azure`, the call returns the
cloud-provider-not-supported error, not the unsupported-platform error. -/
theorem embiggen_bare_pool_with_override :
    barePool.Spec.Platform.AWS = none ∧ barePool.Spec.Platform.GCP = none ∧
    (embiggenMachinePool (receiverFor "azure" "r5.xlarge") barePool).out
      = .err (.cloudProviderNotSupported "azure") ∧
    (embiggenMachinePool (receiverFor "azure" "r5.xlarge") barePool).out
      ≠ .err .unsupportedPlatform := by
  decide

/-- C6, amended: for a pool with neither the AWS nor the GCP field populated,
`getInstanceType` returns the unsupported-platform error; whatever the catalog,
`embiggenMachinePool` never returns a pool nor the unsupported-instance-type error, with no
override it returns the unsupported-platform error, and with an override on a cluster
whose cloud provider is neither `aws` nor `gcp` it returns the
cloud-provider-not-supported error. -/
theorem embiggen_bare_pool (catalog : List (String × String)) (r : Resize) (mp : MachinePool)
    (haws : mp.Spec.Platform.AWS = none) (hgcp : mp.Spec.Platform.GCP = none) :
    getInstanceType mp = .err .unsupportedPlatform ∧
    (r.instanceType = "" →
      (embiggenMachinePoolWith catalog r mp).out = .err .unsupportedPlatform) ∧
    (∀ newMp, (embiggenMachinePoolWith catalog r mp).out ≠ .ok newMp) ∧
    (∀ t, (embiggenMachinePoolWith catalog r mp).out ≠ .err (.resizingNotSupported t)) ∧
    (r.instanceType ≠ "" → cloudProviderID r ≠ "aws" → cloudProviderID r ≠ "gcp" →
      (embiggenMachinePoolWith catalog r mp).out
        = .err (.cloudProviderNotSupported (cloudProviderID r))) := by
  have hg : getInstanceType mp = .err .unsupportedPlatform := by
    simp [getInstanceType, haws, hgcp]
  have hua : (unsetRegenerated mp).Spec.Platform.AWS = none := haws
  have hug : (unsetRegenerated mp).Spec.Platform.GCP = none := hgcp
  by_cases hr : r.instanceType = ""
  · rw [embiggenWith_noPlatform catalog r mp _ hr hg]
    simp [hg, hr]
  · rw [embiggenWith_override catalog r mp hr]
    refine ⟨hg, fun h => absurd h hr, ?_, ?_, fun _ h1 h2 => setInstanceType_other _ _ _ h1 h2⟩
    · intro newMp
      unfold setInstanceType
      split
      · simp [hua]
      · split
        · simp [hug]
        · simp
    · intro t
      unfold setInstanceType
      split
      · simp [hua]
      · split
        · simp [hug]
        · simp

/-- Witness for C6: `barePool` with no override on an `aws` cluster. -/
theorem embiggen_bare_pool_witness :
    getInstanceType barePool = .err .unsupportedPlatform ∧
    (embiggenMachinePoolWith embiggen (receiverFor "aws" "") barePool).out
      = .err .unsupportedPlatform :=
  ⟨(embiggen_bare_pool embiggen (receiverFor "aws" "") barePool rfl rfl).1,
   (embiggen_bare_pool embiggen (receiverFor "aws" "") barePool rfl rfl).2.1 (by decide)⟩

/-! ## C7: what a successful `embiggenMachinePool` returns -/

theorem setInstanceType_ok (p t : String) (m newMp : MachinePool)
    (h : setInstanceType p t m = .ok newMp) :
    (p = "aws" ∧ ∃ a, m.Spec.Platform.AWS = some a ∧
      newMp = { m with Spec := { m.Spec with Platform :=
                  { m.Spec.Platform with AWS := some { a with InstanceType := t } } } }) ∨
    (p = "gcp" ∧ ∃ g, m.Spec.Platform.GCP = some g ∧
      newMp = { m with Spec := { m.Spec with Platform :=
                  { m.Spec.Platform with GCP := some { g with InstanceType := t } } } }) := by
  unfold setInstanceType at h
  split at h
  · next hp =>
    left
    split at h
    · next a ha => exact ⟨hp, a, ha, by injection h with h; exact h.symm⟩
    · simp at h
  · split at h
    · next hp =>
      right
      split at h
      · next g hg => exact ⟨hp, g, hg, by injection h with h; exact h.symm⟩
      · simp at h
    · simp at h

theorem embiggenWith_recv_cluster (catalog : List (String × String)) (r : Resize)
    (mp : MachinePool) :
    (embiggenMachinePoolWith catalog r mp).recv.cluster = r.cluster := by
  unfold embiggenMachinePoolWith
  split
  · rfl
  · split
    · rfl
    · rfl
    · split <;> rfl

theorem embiggenWith_ok (catalog : List (String × String)) (r : Resize) (mp newMp : MachinePool)
    (h : (embiggenMachinePoolWith catalog r mp).out = .ok newMp) :
    setInstanceType (cloudProviderID r) (embiggenMachinePoolWith catalog r mp).recv.instanceType
      (unsetRegenerated mp) = .ok newMp := by
  by_cases hr : r.instanceType = ""
  · cases ht : getInstanceType mp with
    | err e => rw [embiggenWith_noPlatform catalog r mp e hr ht] at h; simp at h
    | nilDeref => exact absurd ht (getInstanceType_ne_nilDeref mp)
    | ok t =>
      cases hn : catalog.lookup t with
      | none => rw [embiggenWith_miss catalog r mp t hr ht hn] at h; simp at h
      | some next =>
        rw [embiggenWith_hit catalog r mp t next hr ht hn] at h ⊢
        exact h
  · rw [embiggenWith_override catalog r mp hr] at h ⊢
    exact h

theorem embiggen_lookup_ne_empty (t next : String) (h : embiggen.lookup t = some next) :
    next ≠ "" := by
  simp only [embiggen, List.lookup] at h
  repeat' split at h
  all_goals first
    | (injection h with h; subst h; decide)
    | simp at h

theorem embiggen_recv_instanceType (r : Resize) (mp newMp : MachinePool)
    (h : (embiggenMachinePool r mp).out = .ok newMp) :
    (embiggenMachinePool r mp).recv.instanceType ≠ "" := by
  unfold embiggenMachinePool at h ⊢
  by_cases hr : r.instanceType = ""
  · cases ht : getInstanceType mp with
    | err e => rw [embiggenWith_noPlatform embiggen r mp e hr ht] at h; simp at h
    | nilDeref => exact absurd ht (getInstanceType_ne_nilDeref mp)
    | ok t =>
      cases hn : embiggen.lookup t with
      | none => rw [embiggenWith_miss embiggen r mp t hr ht hn] at h; simp at h
      | some next =>
        rw [embiggenWith_hit embiggen r mp t next hr ht hn]
        exact embiggen_lookup_ne_empty t next hn
  · rw [embiggenWith_override embiggen r mp hr]
    exact hr

theorem cleared_unsetRegenerated (mp : MachinePool) : Cleared (unsetRegenerated mp) :=
  ⟨rfl, rfl, rfl, rfl, rfl, rfl, rfl⟩

theorem cleared_of_setInstanceType (p t : String) (m newMp : MachinePool) (hm : Cleared m)
    (h : setInstanceType p t m = .ok newMp) : Cleared newMp := by
  rcases setInstanceType_ok p t m newMp h with ⟨_, a, _, rfl⟩ | ⟨_, g, _, rfl⟩
  · exact hm
  · exact hm

theorem cloudProviderID_recv (r : Resize) (mp : MachinePool) :
    cloudProviderID (embiggenMachinePool r mp).recv = cloudProviderID r := by
  unfold cloudProviderID embiggenMachinePool
  rw [embiggenWith_recv_cluster]

theorem cleared_of_embiggen (r : Resize) (mp newMp : MachinePool)
    (h : (embiggenMachinePool r mp).out = .ok newMp) : Cleared newMp :=
  cleared_of_setInstanceType _ _ _ _ (cleared_unsetRegenerated mp)
    (embiggenWith_ok embiggen r mp newMp h)

/-- C7: when `embiggenMachinePool` returns a pool, its creation timestamp, finalizers,
resource version, generation, self link, UID and status hold their zero values; its
namespace, name, labels, pool name, replica count and spec labels are those of the
original; its platform is the original's with only the instance type of one populated
provider replaced by the type left in the receiver; and applying the method again to the
returned pool (with the receiver as the first call left it) returns a pool with the
same fields still cleared, as does any later successful application. -/
theorem embiggen_ok_shape (r : Resize) (mp newMp : MachinePool)
    (h : (embiggenMachinePool r mp).out = .ok newMp) :
    Cleared newMp ∧
    newMp.Namespace = mp.Namespace ∧ newMp.Name = mp.Name ∧ newMp.Labels = mp.Labels ∧
    newMp.Spec.Name = mp.Spec.Name ∧ newMp.Spec.Replicas = mp.Spec.Replicas ∧
    newMp.Spec.Labels = mp.Spec.Labels ∧
    ((∃ a, mp.Spec.Platform.AWS = some a ∧
        newMp.Spec.Platform = { mp.Spec.Platform with
          AWS := some { a with InstanceType := (embiggenMachinePool r mp).recv.instanceType } }) ∨
     (∃ g, mp.Spec.Platform.GCP = some g ∧
        newMp.Spec.Platform = { mp.Spec.Platform with
          GCP := some { g with InstanceType := (embiggenMachinePool r mp).recv.instanceType } })) ∧
    (∃ again, (embiggenMachinePool (embiggenMachinePool r mp).recv newMp).out = .ok again ∧
        Cleared again) ∧
    (∀ r' again, (embiggenMachinePool r' newMp).out = .ok again → Cleared again) := by
  have hset := embiggenWith_ok embiggen r mp newMp h
  have hne := embiggen_recv_instanceType r mp newMp h
  have hprov := cloudProviderID_recv r mp
  refine ⟨cleared_of_embiggen r mp newMp h, ?_, ?_, ?_, ?_, ?_, ?_, ?_, ?_,
    fun r' again h' => cleared_of_embiggen r' newMp again h'⟩
  all_goals
    rcases setInstanceType_ok _ _ _ _ hset with ⟨hp, a, ha, hnew⟩ | ⟨hp, g, hg, hnew⟩
  any_goals (subst hnew; rfl)
  · exact Or.inl ⟨a, ha, by subst hnew; rfl⟩
  · exact Or.inr ⟨g, hg, by subst hnew; rfl⟩
  · have hu : (unsetRegenerated newMp).Spec.Platform.AWS
        = some { a with InstanceType := (embiggenMachinePoolWith embiggen r mp).recv.instanceType } := by
      subst hnew; rfl
    have hs := setInstanceType_aws (embiggenMachinePool r mp).recv.instanceType _ _ hu
    refine ⟨_, ?_, cleared_of_setInstanceType _ _ _ _ (cleared_unsetRegenerated newMp) hs⟩
    rw [embiggenMachinePool, embiggenWith_override embiggen _ newMp hne]
    show setInstanceType (cloudProviderID (embiggenMachinePool r mp).recv) _ _ = _
    rw [hprov, hp]
    exact hs
  · have hu : (unsetRegenerated newMp).Spec.Platform.GCP
        = some { g with InstanceType := (embiggenMachinePoolWith embiggen r mp).recv.instanceType } := by
      subst hnew; rfl
    have hs := setInstanceType_gcp (embiggenMachinePool r mp).recv.instanceType _ _ hu
    refine ⟨_, ?_, cleared_of_setInstanceType _ _ _ _ (cleared_unsetRegenerated newMp) hs⟩
    rw [embiggenMachinePool, embiggenWith_override embiggen _ newMp hne]
    show setInstanceType (cloudProviderID (embiggenMachinePool r mp).recv) _ _ = _
    rw [hprov, hp]
    exact hs

/-- Witness for C7: the AWS scenario, resized from `m5.xlarge`. -/
theorem embiggen_ok_shape_witness :
    (embiggenMachinePool (receiverFor "aws" "") awsPool).out = .ok awsPoolResized ∧
    Cleared awsPoolResized ∧ awsPoolResized.Spec.Replicas = awsPool.Spec.Replicas :=
  ⟨rfl, (embiggen_ok_shape (receiverFor "aws" "") awsPool awsPoolResized rfl).1,
    (embiggen_ok_shape (receiverFor "aws" "") awsPool awsPoolResized rfl).2.2.2.2.2.1⟩

/-! ## C10: what `embiggenMachinePool` writes -/

/-- C10, refuted as stated: called with no override on `awsPool`, the method leaves
`r5.xlarge` in the receiver's `instanceType`, which was empty before the call. -/
theorem embiggen_writes_receiver :
    (receiverFor "aws" "").instanceType = "" ∧
    (embiggenMachinePool (receiverFor "aws" "") awsPool).recv.instanceType = "r5.xlarge" ∧
    (embiggenMachinePool (receiverFor "aws" "") awsPool).recv ≠ receiverFor "aws" "" := by
  decide

/-- C10, amended: `embiggenMachinePool` leaves the input pool and the receiver's clients,
cluster and cluster identifier as they were, whether it returns a pool or an error; the
receiver's `instanceType` is kept when an override was supplied, when the pool has no
supported platform and when the current type is not in the catalog, and it is
overwritten with the catalog value when no override was supplied and the current type
is a catalog key. -/
theorem embiggen_frame (r : Resize) (mp : MachinePool) :
    (embiggenMachinePool r mp).mp = mp ∧
    (embiggenMachinePool r mp).recv.client = r.client ∧
    (embiggenMachinePool r mp).recv.hive = r.hive ∧
    (embiggenMachinePool r mp).recv.hiveAdmin = r.hiveAdmin ∧
    (embiggenMachinePool r mp).recv.cluster = r.cluster ∧
    (embiggenMachinePool r mp).recv.clusterId = r.clusterId ∧
    (r.instanceType ≠ "" → (embiggenMachinePool r mp).recv = r) ∧
    (∀ e, getInstanceType mp = .err e → (embiggenMachinePool r mp).recv = r) ∧
    (∀ t, getInstanceType mp = .ok t → embiggen.lookup t = none →
      (embiggenMachinePool r mp).recv = r) ∧
    (r.instanceType = "" → ∀ t next, getInstanceType mp = .ok t →
      embiggen.lookup t = some next →
      (embiggenMachinePool r mp).recv = { r with instanceType := next }) := by
  unfold embiggenMachinePool
  by_cases hr : r.instanceType = ""
  · cases ht : getInstanceType mp with
    | err e => rw [embiggenWith_noPlatform embiggen r mp e hr ht]; simp [hr]
    | nilDeref => exact absurd ht (getInstanceType_ne_nilDeref mp)
    | ok t =>
      cases hn : embiggen.lookup t with
      | none =>
        rw [embiggenWith_miss embiggen r mp t hr ht hn]
        refine ⟨rfl, rfl, rfl, rfl, rfl, rfl, fun _ => rfl, fun _ _ => rfl, fun _ _ _ => rfl,
          fun _ t' next' ht' hn' => ?_⟩
        injection ht' with ht'
        subst ht'
        rw [hn] at hn'
        simp at hn'
      | some next =>
        rw [embiggenWith_hit embiggen r mp t next hr ht hn]
        refine ⟨rfl, rfl, rfl, rfl, rfl, rfl, fun h => absurd hr h, fun e he => by simp at he,
          fun t' ht' hn' => ?_, fun _ t' next' ht' hn' => ?_⟩
        · injection ht' with ht'
          subst ht'
          rw [hn] at hn'
          simp at hn'
        · injection ht' with ht'
          subst ht'
          rw [hn] at hn'
          injection hn' with hn'
          subst hn'
          rfl
  · rw [embiggenWith_override embiggen r mp hr]
    simp [hr]

/-! ## Facts about `RunInfra` -/

theorem ofError_eq_ok (o : Option Err) (u : Unit) : ofError o = .ok u ↔ o = none := by
  cases o <;> simp [ofError]

theorem notify_calls (w : World) (postCmd : PostCmdOptions) :
    (notify w postCmd).calls = [.post postCmd] := by
  unfold notify
  split <;> rfl

theorem notify_out (w : World) (postCmd : PostCmdOptions) : (notify w postCmd).out = .ok () := by
  unfold notify
  split <;> rfl

/-- The pool mutations of a complete cutover, in order. -/
theorem cutover_calls (w : World) (clusterId : String) (originalMp newMp : MachinePool) :
    ∃ k, 1 ≤ k ∧
      (cutover w clusterId originalMp newMp).calls.filter Call.isPoolMutation
        = [Call.create (tempMp newMp), Call.delete originalMp, Call.create newMp,
            Call.delete (tempMp newMp)].take k ∧
      (2 ≤ k → w.createTemp = none ∧
        PollImmediate w.doubleCapacity
          (readyCondition originalMp (w.labelsParse infraSelector)) = .ok ()) ∧
      (3 ≤ k → w.deleteOriginal = none ∧
        PollImmediate w.originalAbsent absentCondition = .ok ()) ∧
      (4 ≤ k → w.createNew = none ∧
        PollImmediate w.finalCapacity
          (readyCondition originalMp (w.labelsParse infraSelector)) = .ok ()) := by
  unfold cutover step
  repeat' split
  all_goals simp only [ofError_eq_ok, notify_calls] at *
  all_goals first
    | (refine ⟨1, ?_⟩; simp_all [Call.isPoolMutation]; done)
    | (refine ⟨2, ?_⟩; simp_all [Call.isPoolMutation]; done)
    | (refine ⟨3, ?_⟩; simp_all [Call.isPoolMutation]; done)
    | (refine ⟨4, ?_⟩; simp_all [Call.isPoolMutation])

/-! ## C2: the order of the pool mutations -/

/-- C2: in every run of `RunInfra` the Create and Delete calls issued, in order, are the
first `k` of [Create temporary pool, Delete original pool, Create final pool, Delete
temporary pool], the pools being the discovered original, the pool derived by
`embiggenMachinePool` and its temporary sibling.  Any call is issued only after discovery,
plan and confirmation succeeded; the original pool is deleted only if the creation of the
temporary pool and the double-capacity wait succeeded; the final pool is created only if the
deletion and the wait for the original to be absent succeeded; the temporary pool is
deleted only if the creation of the final pool and the final-capacity wait succeeded.  So
after a failed call or wait nothing further is created or deleted. -/
theorem RunInfra_pool_mutations (w : World) (r : Resize) :
    ∃ originalMp newMp k,
      (RunInfra w r).calls.filter Call.isPoolMutation
        = [Call.create (tempMp newMp), Call.delete originalMp, Call.create newMp,
            Call.delete (tempMp newMp)].take k ∧
      (1 ≤ k → ∃ r1, runNew w r = .ok r1 ∧ getInfraMachinePool w r1 = .ok originalMp ∧
        (embiggenMachinePool r1 originalMp).out = .ok newMp ∧ w.confirmPrompt = true) ∧
      (2 ≤ k → w.createTemp = none ∧
        PollImmediate w.doubleCapacity
          (readyCondition originalMp (w.labelsParse infraSelector)) = .ok ()) ∧
      (3 ≤ k → w.deleteOriginal = none ∧
        PollImmediate w.originalAbsent absentCondition = .ok ()) ∧
      (4 ≤ k → w.createNew = none ∧
        PollImmediate w.finalCapacity
          (readyCondition originalMp (w.labelsParse infraSelector)) = .ok ()) := by
  cases h1 : runNew w r with
  | err e => exact ⟨awsPool, awsPool, 0, by simp [RunInfra, step, h1]⟩
  | nilDeref => exact ⟨awsPool, awsPool, 0, by simp [RunInfra, step, h1]⟩
  | ok r1 =>
    cases h2 : getInfraMachinePool w r1 with
    | err e => exact ⟨awsPool, awsPool, 0, by simp [RunInfra, step, h1, h2]⟩
    | nilDeref => exact ⟨awsPool, awsPool, 0, by simp [RunInfra, step, h1, h2]⟩
    | ok originalMp =>
      cases h3 : (embiggenMachinePool r1 originalMp).out with
      | err e => exact ⟨awsPool, awsPool, 0, by simp [RunInfra, step, h1, h2, h3]⟩
      | nilDeref => exact ⟨awsPool, awsPool, 0, by simp [RunInfra, step, h1, h2, h3]⟩
      | ok newMp =>
        cases h4 : parseInstanceType (tempMp newMp) with
        | err e => exact ⟨awsPool, awsPool, 0, by simp [RunInfra, step, h1, h2, h3, h4]⟩
        | nilDeref => exact ⟨awsPool, awsPool, 0, by simp [RunInfra, step, h1, h2, h3, h4]⟩
        | ok t =>
          cases hc : w.confirmPrompt with
          | false => exact ⟨awsPool, awsPool, 0, by simp [RunInfra, step, h1, h2, h3, h4, hc]⟩
          | true =>
            obtain ⟨k, _, hcalls, h2', h3', h4'⟩ :=
              cutover_calls w (embiggenMachinePool r1 originalMp).recv.clusterId originalMp newMp
            refine ⟨originalMp, newMp, k, ?_, fun _ => ⟨r1, rfl, h2, h3, rfl⟩, h2', h3', h4'⟩
            simpa [RunInfra, step, h1, h2, h3, h4, hc] using hcalls

/-! ## C3: nothing is mutated before the confirmation -/

theorem parseInstanceType_of_embiggen (r : Resize) (mp newMp : MachinePool)
    (h : (embiggenMachinePool r mp).out = .ok newMp) :
    ∃ t, parseInstanceType (tempMp newMp) = .ok t := by
  have hset := embiggenWith_ok embiggen r mp newMp h
  rcases setInstanceType_ok _ _ _ _ hset with ⟨_, a, _, hnew⟩ | ⟨_, g, _, hnew⟩
  · subst hnew
    exact ⟨_, by simp [parseInstanceType, getInstanceType, tempMp]; rfl⟩
  · subst hnew
    cases ha : mp.Spec.Platform.AWS with
    | none => exact ⟨_, by simp [parseInstanceType, getInstanceType, tempMp, unsetRegenerated, ha]; rfl⟩
    | some a => exact ⟨_, by simp [parseInstanceType, getInstanceType, tempMp, unsetRegenerated, ha]; rfl⟩

/-- C3: in a run of `RunInfra` whose initialisation succeeded, a failed discovery of the
infra pool (in particular a namespace count other than one, or no pool named `infra`)
and a failed plan (`embiggenMachinePool` returning an error) make `RunInfra` return that
error with no call issued, and a declined confirmation makes it return no error with no
call issued. -/
theorem RunInfra_stops_before_mutation (w : World) (r r1 : Resize) (h1 : runNew w r = .ok r1) :
    (∀ e, getInfraMachinePool w r1 = .err e →
      RunInfra w r = { calls := [], out := .err e }) ∧
    (∀ items, w.labelsParse ("api.openshiftus.com/id=" ++ r1.clusterId) = none →
      w.listNamespaces = .ok items → items.length ≠ 1 →
      getInfraMachinePool w r1 = .err (.expectedOneNamespace items.length r1.clusterId)) ∧
    (∀ ns0 mpItems, w.labelsParse ("api.openshiftus.com/id=" ++ r1.clusterId) = none →
      w.listNamespaces = .ok [ns0] → w.listMachinePools ns0.Name = .ok mpItems →
      (∀ mp ∈ mpItems, mp.Spec.Name ≠ "infra") →
      getInfraMachinePool w r1 = .err (.infraMachinePoolNotFound ns0.Name)) ∧
    (∀ originalMp e, getInfraMachinePool w r1 = .ok originalMp →
      (embiggenMachinePool r1 originalMp).out = .err e →
      RunInfra w r = { calls := [], out := .err e }) ∧
    (∀ originalMp newMp, getInfraMachinePool w r1 = .ok originalMp →
      (embiggenMachinePool r1 originalMp).out = .ok newMp → w.confirmPrompt = false →
      RunInfra w r = { calls := [], out := .ok () }) := by
  refine ⟨fun e h2 => ?_, fun items hp hl hlen => ?_, fun ns0 mpItems hp hl hm hnone => ?_,
    fun originalMp e h2 h3 => ?_, fun originalMp newMp h2 h3 hc => ?_⟩
  · simp [RunInfra, step, h1, h2]
  · unfold getInfraMachinePool
    rw [hp, hl]
    match items, hlen with
    | [], _ => rfl
    | [_], hlen => exact absurd rfl hlen
    | _ :: _ :: _, _ => rfl
  · have hfind : mpItems.find? (fun mp => decide (mp.Spec.Name = "infra")) = none := by
      rw [List.find?_eq_none]
      intro mp hmem
      simpa using hnone mp hmem
    simp [getInfraMachinePool, hp, hl, hm, hfind]
  · simp [RunInfra, step, h1, h2, h3]
  · obtain ⟨t, h4⟩ := parseInstanceType_of_embiggen r1 originalMp newMp h3
    simp [RunInfra, step, h1, h2, h3, h4, hc]

/-- Witness for C3: the hive namespace holds no pool named `infra`, and the run ends with
that error and an empty trace. -/
theorem RunInfra_stops_before_mutation_witness :
    RunInfra noInfraWorld freshReceiver
      = { calls := [], out := .err (.infraMachinePoolNotFound "uhc-production-1a2b3c") } :=
  (RunInfra_stops_before_mutation noInfraWorld freshReceiver (receiverFor "aws" "") rfl).1 _ rfl

/-! ## C8: the temporary pool -/

/-- C8: the temporary pool built from `newMp` at lines 79-81 of `RunInfra` has the name of
`newMp` followed by "2" and the pool name of `newMp` followed by "2"; putting the two
names back gives `newMp`, so every other field is the one of `newMp`, in particular the
namespace, the replica count, the platform and the instance type read by
`getInstanceType`; and the cutover submits the temporary pool first and `newMp` itself,
unmodified, among its later calls. -/
theorem tempMp_shape (newMp : MachinePool) :
    (tempMp newMp).Name = newMp.Name ++ "2" ∧
    (tempMp newMp).Spec.Name = newMp.Spec.Name ++ "2" ∧
    { tempMp newMp with
      Name := newMp.Name
      Spec := { (tempMp newMp).Spec with Name := newMp.Spec.Name } } = newMp ∧
    (tempMp newMp).Namespace = newMp.Namespace ∧
    (tempMp newMp).Spec.Replicas = newMp.Spec.Replicas ∧
    (tempMp newMp).Spec.Platform = newMp.Spec.Platform ∧
    getInstanceType (tempMp newMp) = getInstanceType newMp ∧
    (∀ (w : World) (clusterId : String) (originalMp : MachinePool),
      (cutover w clusterId originalMp newMp).calls.head? = some (.create (tempMp newMp)) ∧
      (cutover w clusterId originalMp newMp).calls.filter Call.isPoolMutation
        = [Call.create (tempMp newMp), Call.delete originalMp, Call.create newMp,
            Call.delete (tempMp newMp)].take
            ((cutover w clusterId originalMp newMp).calls.filter Call.isPoolMutation).length) := by
  refine ⟨rfl, rfl, rfl, rfl, rfl, rfl, rfl, fun w clusterId originalMp => ⟨?_, ?_⟩⟩
  · unfold cutover step
    split <;> rfl
  · obtain ⟨k, _, hcalls, _⟩ := cutover_calls w clusterId originalMp newMp
    rw [hcalls]
    simp

/-! ## C4: the capacity poll condition -/

theorem countConditions_eq (conds : List NodeCondition) (acc : Nat) :
    countConditions conds acc = acc + (conds.filter readyTrue).length := by
  induction conds generalizing acc with
  | nil => simp [countConditions]
  | cons c cs ih =>
    have hstep : countConditions (c :: cs) acc
        = countConditions cs (if c.Type_ = NodeReady then
            if c.Status = ConditionTrue then acc + 1 else acc else acc) := rfl
    rw [hstep, ih]
    by_cases h1 : c.Type_ = NodeReady <;> by_cases h2 : c.Status = ConditionTrue <;>
      simp [readyTrue, h1, h2]
    omega

theorem readyNodes_eq_sum (items : List Node) :
    readyNodes items = (items.map fun node => (node.Status.Conditions.filter readyTrue).length).sum := by
  have key : ∀ (l : List Node) (acc : Nat),
      l.foldl (fun acc node => countConditions node.Status.Conditions acc) acc
        = acc + (l.map fun node => (node.Status.Conditions.filter readyTrue).length).sum := by
    intro l
    induction l with
    | nil => intro acc; simp
    | cons n ns ih =>
      intro acc
      simp only [List.foldl_cons, List.map_cons, List.sum_cons]
      rw [ih, countConditions_eq]
      omega
  simpa [readyNodes] using key items 0

/-- When no node lists the Ready/True condition more than once, the count made by the
poll is the number of Ready nodes. -/
theorem readyNodes_eq_spec (items : List Node)
    (h : ∀ node ∈ items, (node.Status.Conditions.filter readyTrue).length ≤ 1) :
    readyNodes items = specReadyNodeCount items := by
  rw [readyNodes_eq_sum]
  unfold specReadyNodeCount
  induction items with
  | nil => rfl
  | cons n ns ih =>
    have hn := h n (List.mem_cons_self _ _)
    have ih' := ih fun node hm => h node (List.mem_cons_of_mem _ hm)
    simp only [List.map_cons, List.sum_cons, ih', List.filter_cons]
    by_cases hany : n.Status.Conditions.any readyTrue = true
    · have hpos : 0 < (n.Status.Conditions.filter readyTrue).length := by
        obtain ⟨c, hc, hr⟩ := List.any_eq_true.mp hany
        exact List.length_pos_of_mem (List.mem_filter.mpr ⟨hc, hr⟩)
      simp only [hany, if_true, List.length_cons]
      omega
    · have hzero : (n.Status.Conditions.filter readyTrue).length = 0 := by
        rw [List.length_eq_zero, List.filter_eq_nil_iff]
        intro c hc hr
        exact hany (List.any_eq_true.mpr ⟨c, hc, hr⟩)
      simp [hany, hzero]

theorem wrap64_of_small (x : Int) (h1 : -2 ^ 63 ≤ x) (h2 : x < 2 ^ 63) : wrap64 x = x := by
  unfold wrap64
  omega

/-- With a replica count whose double fits in 64 bits and no duplicated Ready condition,
the poll condition is done exactly when at least `2 * n` nodes are Ready, and a list
error is handed back. -/
theorem readyCondition_spec (mp : MachinePool) (n : Int) (items : List Node)
    (hrep : mp.Spec.Replicas = some n) (h1 : -2 ^ 62 ≤ n) (h2 : n < 2 ^ 62)
    (h : ∀ node ∈ items, (node.Status.Conditions.filter readyTrue).length ≤ 1) :
    readyCondition mp none (.ok items) = .ok (decide (2 * n ≤ (specReadyNodeCount items : Int))) ∧
    ∀ e, readyCondition mp none (.error e) = .err e := by
  refine ⟨?_, fun e => rfl⟩
  have hw : wrap64 (n * 2) = 2 * n := by
    rw [wrap64_of_small (n * 2) (by omega) (by omega)]
    ring
  simp [readyCondition, hrep, hw, readyNodes_eq_spec items h]

/-- The product `int(*Replicas)*2` wraps around for a replica count of `2 ^ 62`: the
target is then negative and an empty listing already ends the wait. -/
theorem readyCondition_wraps :
    readyCondition { awsPool with Spec := { awsPool.Spec with Replicas := some (2 ^ 62) } }
      none (.ok []) = .ok true := by
  decide

/-- C4, the defect: the poll condition counts Ready/True conditions, not nodes.  For one
original replica (target 2) and a listing of the single node `twiceReadyNode`, whose
condition list carries Ready/True twice, one node is Ready, the count made by the code is
2, and the condition reports done, where the claim has it keep polling. -/
theorem readyCondition_counts_conditions :
    singlePool.Spec.Replicas = some 1 ∧
    specReadyNodeCount [twiceReadyNode] = 1 ∧
    readyNodes [twiceReadyNode] = 2 ∧
    readyCondition singlePool none (.ok [twiceReadyNode]) = .ok true := by
  decide

/-! ## C9: the customer notification -/

/-- On a pool whose AWS field is populated, a cutover in which every call and wait
succeeds posts one service log, built from the fixed template, the cluster identifier and
the parameter `INSTANCE_TYPE=` followed by the AWS instance type of `newMp`, and returns
no error whether the post succeeds or fails. -/
theorem cutover_notifies_aws (w : World) (clusterId : String) (originalMp newMp : MachinePool)
    (a : AWSMachinePoolPlatform) (n : Int)
    (haws : newMp.Spec.Platform.AWS = some a) (hrep : originalMp.Spec.Replicas = some n)
    (hc1 : w.createTemp = none)
    (hp1 : PollImmediate w.doubleCapacity
      (readyCondition originalMp (w.labelsParse infraSelector)) = .ok ())
    (hd1 : w.deleteOriginal = none)
    (hp2 : PollImmediate w.originalAbsent absentCondition = .ok ())
    (hc2 : w.createNew = none)
    (hp3 : PollImmediate w.finalCapacity
      (readyCondition originalMp (w.labelsParse infraSelector)) = .ok ())
    (hd2 : w.deleteTemp = none)
    (hp4 : PollImmediate w.tempAbsent absentCondition = .ok ())
    (hp5 : PollImmediate w.steadyCount
      (steadyCondition originalMp (w.labelsParse infraSelector)) = .ok ()) :
    cutover w clusterId originalMp newMp =
      { calls := [.create (tempMp newMp), .delete originalMp, .create newMp,
                  .delete (tempMp newMp),
                  .post { Template := resizedInfraNodeServiceLogTemplate
                          ClusterId := clusterId
                          TemplateParams := ["INSTANCE_TYPE=" ++ a.InstanceType] }]
        out := .ok () } := by
  simp [cutover, step, ofError, hc1, hp1, hd1, hp2, hc2, hp3, hd2, hp4, hp5, derefReplicas,
    hrep, awsInstanceType, haws, notify_calls, notify_out, generateServiceLog]

/-- The AWS scenario of the specification end to end: the four mutations in order, the
service log for `r5.xlarge`, and no error although the post fails. -/
theorem RunInfra_aws_campaign :
    RunInfra (smoothWorld "aws" awsPool (some (.external "servicelog: connection refused")))
        freshReceiver =
      { calls := [.create (tempMp awsPoolResized), .delete awsPool, .create awsPoolResized,
                  .delete (tempMp awsPoolResized),
                  .post { Template := resizedInfraNodeServiceLogTemplate
                          ClusterId := "1a2b3c"
                          TemplateParams := ["INSTANCE_TYPE=r5.xlarge"] }]
        out := .ok () } := by
  decide

/-- C9, the defect: on a `gcp` cluster with a GCP pool, with every create, delete and wait
succeeding, `RunInfra` issues the four mutations and then panics at line 248, where the
instance type is read through the nil AWS pointer of the final pool; no service log is
built and the run does not return success. -/
theorem RunInfra_gcp_campaign_panics :
    gcpPoolResized.Spec.Platform.AWS = none ∧
    getInstanceType gcpPoolResized = .ok "custom-8-65536-ext" ∧
    RunInfra (smoothWorld "gcp" gcpPool none) freshReceiver =
      { calls := [.create (tempMp gcpPoolResized), .delete gcpPool, .create gcpPoolResized,
                  .delete (tempMp gcpPoolResized)]
        out := .nilDeref } := by
  decide

end Resize
